import Mathlib

/-!
# Email-Builder server (`server/index.js`): shallow embedding

The server is an express application with five routes.  Each route handler is
embedded as a pure function from the handler's inputs (the request, the current
database, the results of the file-system and clock reads it performs) to the
HTTP response it sends and, for the save route, the database afterwards.

The handlers call into libraries (sqlite, multer, Handlebars, `JSON.stringify`).
Those calls are embedded by small models of the documented behaviour of the
library on the inputs the handlers pass; each such model says in its doc
comment what it covers.
-/

namespace EmailBuilder

/-! ## JSON values and `JSON.stringify` -/

/-- A JSON value as `express.json()` hands it to a handler, and as `res.send`
serialises it.  Numbers are the integer-valued ones (JavaScript prints and
reads them exactly up to `MAX_SAFE_INTEGER` in magnitude); an object is the list
of its members in order. -/
inductive JSON where
  | null : JSON
  | bool (b : Bool) : JSON
  | num (n : Int) : JSON
  | str (s : String) : JSON
  | arr (items : List JSON) : JSON
  | obj (members : List (String × JSON)) : JSON

/-- `Number.MAX_SAFE_INTEGER` (2^53 - 1). -/
def MAX_SAFE_INTEGER : Nat := 9007199254740991

/-- One character of a string inside `JSON.stringify` output (ECMAScript
`QuoteJSONString`): the quote and the backslash are escaped, control characters
get their short escape or `\u00xx`, every other character stands for itself. -/
def quoteChar (c : Char) : List Char :=
  if c = '"' then ['\\', '"']
  else if c = '\\' then ['\\', '\\']
  else if c.toNat = 8 then ['\\', 'b']
  else if c.toNat = 9 then ['\\', 't']
  else if c.toNat = 10 then ['\\', 'n']
  else if c.toNat = 12 then ['\\', 'f']
  else if c.toNat = 13 then ['\\', 'r']
  else if c.toNat < 32 then
    ['\\', 'u', '0', '0', Nat.digitChar (c.toNat / 16), Nat.digitChar (c.toNat % 16)]
  else [c]

/-- A string literal of `JSON.stringify` output: the escaped characters between
double quotes. -/
def quoteJSONString (s : String) : String :=
  "\"" ++ String.mk (s.data.flatMap quoteChar) ++ "\""

mutual
/-- `JSON.stringify(v)` for a JSON value `v` (no indentation argument). -/
def JSON.stringify : JSON → String
  | .null => "null"
  | .bool true => "true"
  | .bool false => "false"
  | .num n => toString n
  | .str s => quoteJSONString s
  | .arr items => "[" ++ JSON.stringifyItems items ++ "]"
  | .obj members => "\x7b" ++ JSON.stringifyMembers members ++ "\x7d"
/-- The comma-separated elements of an array. -/
def JSON.stringifyItems : List JSON → String
  | [] => ""
  | [v] => JSON.stringify v
  | v :: rest => JSON.stringify v ++ "," ++ JSON.stringifyItems rest
/-- The comma-separated `"key":value` members of an object. -/
def JSON.stringifyMembers : List (String × JSON) → String
  | [] => ""
  | [(k, v)] => quoteJSONString k ++ ":" ++ JSON.stringify v
  | (k, v) :: rest =>
    quoteJSONString k ++ ":" ++ JSON.stringify v ++ "," ++ JSON.stringifyMembers rest
end

/-! ## The `templates` table -/

/-- A row of the table created by `setupDatabase`:
`id INTEGER PRIMARY KEY AUTOINCREMENT, title TEXT NOT NULL, content TEXT NOT NULL,
footer TEXT, imageUrl TEXT, styles TEXT, created_at DATETIME DEFAULT
CURRENT_TIMESTAMP, updated_at DATETIME DEFAULT CURRENT_TIMESTAMP`.
A nullable TEXT column is an `Option String` (`none` is SQL NULL).  The two
timestamps are the instant of the insert in seconds: `CURRENT_TIMESTAMP` is the
fixed-width text `YYYY-MM-DD HH:MM:SS`, whose text order is the order of the
instants. -/
structure Row where
  id : Nat
  title : String
  content : String
  footer : Option String
  imageUrl : Option String
  styles : Option String
  created_at : Nat
  updated_at : Nat
  deriving DecidableEq, Repr

/-- The database behind the handle `db`: the rows of `templates` in rowid order
and the `sqlite_sequence` entry that AUTOINCREMENT keeps for the table (the
largest rowid ever handed out). -/
structure Db where
  rows : List Row
  seq : Nat
  deriving DecidableEq, Repr

/-- The database file right after `setupDatabase` created the table. -/
def Db.empty : Db := ⟨[], 0⟩

/-- Why a statement failed. -/
inductive SqlError where
  | ioFailure
  | notNull (column : String)
  | full
  deriving DecidableEq, Repr

/-- Largest rowid sqlite can assign (2^63 - 1). -/
def MAX_ROWID : Nat := 9223372036854775807

/-- Largest rowid present in the table, 0 when the table is empty. -/
def Db.maxRowid (d : Db) : Nat := (d.rows.map Row.id).foldr max 0

/-- The statement of the save handler,
`INSERT INTO templates (title, content, footer, imageUrl, styles) VALUES (?,?,?,?,?)`,
run through `db.run`; a parameter that is `undefined` or `null` is bound as NULL.
`storageUp = false` stands for a failure of the storage medium (disk full, lock).
The new rowid (`lastID`) is one more than both the largest rowid in the table
and the `sqlite_sequence` entry; when either is `MAX_ROWID` the statement fails
with SQLITE_FULL.  The NOT NULL constraints on `title` and `content` are checked
on the row to insert.  A failed statement leaves the database as it was. -/
def Db.run_insert (d : Db) (storageUp : Bool) (now : Nat)
    (title content footer imageUrl styles : Option String) : Except SqlError (Db × Nat) :=
  if !storageUp then .error .ioFailure
  else if d.maxRowid ≥ MAX_ROWID ∨ d.seq ≥ MAX_ROWID then .error .full
  else match title, content with
    | none, _ => .error (.notNull "title")
    | some _, none => .error (.notNull "content")
    | some t, some c =>
      let lastID := max d.maxRowid d.seq + 1
      let row : Row := ⟨lastID, t, c, footer, imageUrl, styles, now, now⟩
      .ok (⟨d.rows ++ [row], lastID⟩, lastID)

/-- The statement of the list handler, `SELECT * FROM templates ORDER BY
created_at DESC`, run through `db.all`: every row, sorted on `created_at`,
largest first.  SQL leaves the order of rows with equal `created_at` open; the
sort used here keeps them in rowid order. -/
def Db.all_ordered (d : Db) (storageUp : Bool) : Except SqlError (List Row) :=
  if !storageUp then .error .ioFailure
  else .ok (d.rows.insertionSort (fun a b => b.created_at ≤ a.created_at))

/-- The order of `ORDER BY created_at DESC` compares any two rows. -/
instance : IsTotal Row (fun a b => b.created_at ≤ a.created_at) :=
  ⟨fun a b => le_total b.created_at a.created_at⟩

/-- The order of `ORDER BY created_at DESC` is transitive. -/
instance : IsTrans Row (fun a b => b.created_at ≤ a.created_at) :=
  ⟨fun _ _ _ hab hbc => le_trans hbc hab⟩

/-! ## HTTP responses -/

/-- What `res.send` was given: a string, a JSON value, or the array of rows
`db.all` returned (sent as a JSON array of row objects). -/
inductive Body where
  | text (s : String)
  | json (v : JSON)
  | rows (rs : List Row)

/-- A response: the status (200 unless `res.status` was called), the headers
set with `res.setHeader`, and the body. -/
structure Response where
  status : Nat
  headers : List (String × String)
  body : Body

/-- The response `res.status(500).send({ error: msg })`. -/
def serverError (msg : String) : Response :=
  ⟨500, [], .json (.obj [("error", .str msg)])⟩

/-- The body is a JSON object with exactly one member, `error`, holding a
message. -/
def Body.isErrorObject : Body → Bool
  | .json (.obj [(k, .str _)]) => k == "error"
  | _ => false

/-- The body is a JSON object with a member called `name`. -/
def Body.hasMember (name : String) : Body → Bool
  | .json (.obj members) => members.any (fun kv => kv.1 == name)
  | _ => false

/-! ## Get layout -/

/-- `GET /api/getEmailLayout`.  `file` is the outcome of
`fs.readFile(templatePath, 'utf-8')`. -/
def getEmailLayout (file : Except String String) : Response :=
  match file with
  | .ok template => ⟨200, [], .text template⟩
  | .error _ => serverError "Failed to read template file"

/-! ## Upload image -/

/-- The port the server listens on. -/
def port : Nat := 3000

/-- The `filename` callback of `multer.diskStorage`.  `now` is `Date.now()`,
`rnd` is `Math.round(Math.random() * 1E9)`; `+` with a string operand is
concatenation, and a non-negative integer of this size turns into its decimal
digits. -/
def filename (now rnd : Nat) (originalname : String) : String :=
  let uniqueSuffix := toString now ++ "-" ++ toString rnd
  uniqueSuffix ++ "-" ++ originalname

/-- A file part of a multipart request: its name on the client and its bytes. -/
structure FilePart where
  originalname : String
  bytes : List Nat

/-- The object multer puts in `req.file`. -/
structure MulterFile where
  originalname : String
  filename : String
  deriving DecidableEq, Repr

/-- `upload.single('image')`: with a file part in field `image`, `req.file`
carries the name the `filename` callback produced; without one it is absent. -/
def upload_single (now rnd : Nat) (part : Option FilePart) : Option MulterFile :=
  part.map fun p => ⟨p.originalname, filename now rnd p.originalname⟩

/-- `POST /api/uploadImage`, the handler after `upload.single('image')`. -/
def uploadImage (file : Option MulterFile) : Response :=
  match file with
  | none => ⟨400, [], .json (.obj [("error", .str "No file uploaded")])⟩
  | some f =>
    let imageUrl := "http://localhost:" ++ toString port ++ "/uploads/" ++ f.filename
    ⟨200, [], .json (.obj [("imageUrl", .str imageUrl)])⟩

/-! ## Save and list -/

/-- The members the save handler destructures from `req.body`; a member that
is missing (or `null`, for the text members) is `none`. -/
structure Payload where
  title : Option String
  content : Option String
  footer : Option String
  imageUrl : Option String
  styles : Option JSON

/-- `POST /api/uploadEmailConfig`.  `db` is the module variable `db`
(`none` while `setupDatabase` has not assigned it: `db.run` then throws inside
the `try`).  `JSON.stringify(undefined)` is `undefined`, bound as NULL.
Returns the database afterwards and the response. -/
def uploadEmailConfig (db : Option Db) (storageUp : Bool) (now : Nat) (body : Payload) :
    Option Db × Response :=
  match db with
  | none => (none, serverError "Failed to save template")
  | some d =>
    match d.run_insert storageUp now body.title body.content body.footer body.imageUrl
        (body.styles.map JSON.stringify) with
    | .ok (d', lastID) => (some d', ⟨200, [], .json (.obj [("id", .num lastID)])⟩)
    | .error _ => (some d, serverError "Failed to save template")

/-- `GET /api/templates`. -/
def templates (db : Option Db) (storageUp : Bool) : Response :=
  match db with
  | none => serverError "Failed to fetch templates"
  | some d =>
    match d.all_ordered storageUp with
    | .ok rs => ⟨200, [], .rows rs⟩
    | .error _ => serverError "Failed to fetch templates"

/-! ## Render and download

`Handlebars.compile(templateContent)` followed by `template(req.body)` is
modelled on a fragment of the Handlebars language: literal text and mustaches
`{{ id }}` whose `id` is a plain identifier.  On a layout outside the fragment
the model answers `unmodelled` and says nothing about the library. -/

namespace Handlebars

/-- Tokens of the fragment: a run of literal text, or a mustache `{{id}}`. -/
inductive Token where
  | content (text : List Char)
  | mustache (id : List Char)
  deriving DecidableEq, Repr

/-- Outcome of lexing and parsing a layout. -/
inductive LexResult where
  | tokens (ts : List Token)
  | parseError
  | unmodelled
  deriving DecidableEq, Repr

/-- Put a token in front of the tokens that follow it. -/
def LexResult.cons (t : Token) : LexResult → LexResult
  | .tokens ts => .tokens (t :: ts)
  | r => r

/-- Emit the literal text read so far (kept reversed in `acc`); the lexer
emits no CONTENT token for an empty run. -/
def content (acc : List Char) (r : LexResult) : LexResult :=
  if acc.isEmpty then r else r.cons (.content acc.reverse)

/-- Blanks skipped inside a mustache. -/
def isSpace (c : Char) : Bool := c == ' ' || c == '\t' || c == '\n' || c == '\r'

/-- Characters of the identifiers the fragment covers. -/
def isIdChar (c : Char) : Bool := c.isAlphanum || c == '_'

/-- Identifiers that are not plain property lookups in Handlebars: literals,
`this`, `else`, the built-in helpers, and the names on `Object.prototype`. -/
def reserved : List String :=
  ["true", "false", "null", "undefined", "this", "else",
   "helperMissing", "blockHelperMissing", "each", "if", "unless", "with", "log", "lookup",
   "constructor", "__proto__", "__defineGetter__", "__defineSetter__", "__lookupGetter__",
   "__lookupSetter__", "hasOwnProperty", "isPrototypeOf", "propertyIsEnumerable",
   "toLocaleString", "toString", "valueOf"]

/-- A plain identifier: not empty, no leading digit, not reserved. -/
def simpleId (id : List Char) : Bool :=
  match id with
  | [] => false
  | c :: _ => !c.isDigit && !reserved.contains (String.mk id)

/-- Position of the lexer: in literal text; in literal text right after one
`{`; right after `{{`; inside the identifier; in the blanks after it; after the
first `}` of the closing `}}`. -/
inductive Mode where
  | text (acc : List Char)
  | brace (acc : List Char)
  | opened
  | id (name : List Char)
  | closing (name : List Char)
  | closed (name : List Char)

/-- The lexer and parser on the fragment.  Literal text runs up to the first
`{{`.  A backslash right before `{{` (an escaped mustache), a NUL character,
and any mustache that is not `{{ id }}` with a plain identifier (blocks,
partials, comments, `{{{`, `~`, paths, parameters, a `}` right after the closing
`}}`) are outside the fragment.  A `{{` followed only by blanks up to the end of
the layout, and an empty mustache `{{}}`, are parse errors. -/
def scan : Mode → List Char → LexResult
  | .text acc, [] => content acc (.tokens [])
  | .brace acc, [] => content ('{' :: acc) (.tokens [])
  | .opened, [] => .parseError
  | .id _, [] => .unmodelled
  | .closing _, [] => .unmodelled
  | .closed _, [] => .unmodelled
  | .text acc, c :: rest =>
    if c.toNat == 0 then .unmodelled
    else if c == '{' then scan (.brace acc) rest
    else scan (.text (c :: acc)) rest
  | .brace acc, c :: rest =>
    if c.toNat == 0 then .unmodelled
    else if c == '{' then
      if acc.head? == some '\\' then .unmodelled else content acc (scan .opened rest)
    else scan (.text (c :: '{' :: acc)) rest
  | .opened, c :: rest =>
    if isSpace c then scan .opened rest
    else if isIdChar c then scan (.id [c]) rest
    else if c == '}' && rest.head? == some '}' then .parseError
    else .unmodelled
  | .id name, c :: rest =>
    if isIdChar c then scan (.id (c :: name)) rest
    else if isSpace c then scan (.closing name) rest
    else if c == '}' then scan (.closed name) rest
    else .unmodelled
  | .closing name, c :: rest =>
    if isSpace c then scan (.closing name) rest
    else if c == '}' then scan (.closed name) rest
    else .unmodelled
  | .closed name, c :: rest =>
    if c == '}' && rest.head? != some '}' && simpleId name.reverse then
      (scan (.text []) rest).cons (.mustache name.reverse)
    else .unmodelled

/-- One character under `Handlebars.escapeExpression`. -/
def escapeChar (c : Char) : List Char :=
  if c == '&' then "&amp;".data
  else if c == '<' then "&lt;".data
  else if c == '>' then "&gt;".data
  else if c == '"' then "&quot;".data
  else if c == '\'' then "&#x27;".data
  else if c == '`' then "&#x60;".data
  else if c == '=' then "&#x3D;".data
  else [c]

/-- `Handlebars.escapeExpression` on a string: the HTML escaping applied to the
value of a `{{id}}` mustache. -/
def escapeExpression (s : String) : String := String.mk (s.data.flatMap escapeChar)

/-- Own property `name` of the context object (of duplicate members in the
request text the last one is the property). -/
def lookupProperty (members : List (String × JSON)) (name : String) : Option JSON :=
  (members.reverse.find? (fun kv => kv.1 == name)).map (fun kv => kv.2)

/-- Text a `{{id}}` mustache produces for the looked-up value: nothing for a
missing property or `null`, the escaped string, the decimal number, `true` or
`false`.  Arrays, objects and numbers that are not safe integers are outside
the fragment (`none`). -/
def valueText : Option JSON → Option String
  | none => some ""
  | some .null => some ""
  | some (.bool b) => some (toString b)
  | some (.num n) => if n.natAbs ≤ MAX_SAFE_INTEGER then some (toString n) else none
  | some (.str s) => some (escapeExpression s)
  | some (.arr _) => none
  | some (.obj _) => none

/-- Run the compiled template: the tokens' texts in order. -/
def run (members : List (String × JSON)) : List Token → Option String
  | [] => some ""
  | .content text :: rest => (run members rest).map (fun out => String.mk text ++ out)
  | .mustache id :: rest =>
    match valueText (lookupProperty members (String.mk id)), run members rest with
    | some v, some out => some (v ++ out)
    | _, _ => none

/-- Outcome of `Handlebars.compile(layout)(context)`. -/
inductive Rendered where
  | html (s : String)
  | throws
  | unmodelled
  deriving DecidableEq, Repr

/-- `Handlebars.compile(layout)(context)` on the fragment, for a context that
is a JSON object. -/
def render (layout : String) (context : JSON) : Rendered :=
  match scan (.text []) layout.data with
  | .parseError => .throws
  | .unmodelled => .unmodelled
  | .tokens ts =>
    match context with
    | .obj members =>
      match run members ts with
      | some out => .html out
      | none => .unmodelled
    | _ => .unmodelled

end Handlebars

/-- `POST /api/renderAndDownloadTemplate`.  `file` is the outcome of
`fs.readFile(templatePath, 'utf-8')`, `body` is `req.body`.  The answer is
`none` where the Handlebars model does not cover the layout or the body. -/
def renderAndDownloadTemplate (file : Except String String) (body : JSON) : Option Response :=
  match file with
  | .error _ => some (serverError "Failed to render template")
  | .ok templateContent =>
    match Handlebars.render templateContent body with
    | .html html =>
      some ⟨200, [("Content-Type", "text/html"),
                  ("Content-Disposition", "attachment; filename=email-template.html")],
            .text html⟩
    | .throws => some (serverError "Failed to render template")
    | .unmodelled => none

/-! ## Layouts written as text pieces and placeholders

Used to state what rendering does: a layout `t₀ {{n₁}} t₁ … {{nₖ}} tₖ` is its
first text and the list of (placeholder name, text after it). -/

/-- A run of save requests, each with its own storage condition, clock reading
and body, applied to the database in order. -/
def runSaves (db : Option Db) : List (Bool × Nat × Payload) → Option Db
  | [] => db
  | (up, now, body) :: rest => runSaves (uploadEmailConfig db up now body).1 rest

/-- The scenario payload of the specification:
`{title:"Welcome", content:"<p>Hi</p>", footer:"", imageUrl:"", styles:{color:"blue"}}`. -/
def welcome : Payload :=
  ⟨some "Welcome", some "<p>Hi</p>", some "", some "", some (.obj [("color", .str "blue")])⟩

/-- One upload as the process sees it: the clock reading and the random
integer drawn in the `filename` callback, and the file part received. -/
structure UploadEvent where
  now : Nat
  rnd : Nat
  part : FilePart

/-- The filename multer stored for an upload (`req.file.filename`). -/
def storedName (u : UploadEvent) : Option String :=
  (upload_single u.now u.rnd (some u.part)).map MulterFile.filename

/-- The filenames generated for a sequence of uploads, in order. -/
def generatedNames (us : List UploadEvent) : List String := us.filterMap storedName


/-! ## Lemmas on the table -/

theorem templates_ok (d : Db) :
    templates (some d) true =
      ⟨200, [], .rows (d.rows.insertionSort (fun a b => b.created_at ≤ a.created_at))⟩ := by
  simp [templates, Db.all_ordered]

theorem runSaves_some (d : Db) (saves : List (Bool × Nat × Payload)) :
    ∃ stored, runSaves (some d) saves = some stored := by
  induction saves generalizing d with
  | nil => exact ⟨d, rfl⟩
  | cons s rest ih =>
    obtain ⟨up, now, body⟩ := s
    simp only [runSaves]
    unfold uploadEmailConfig
    simp only
    split
    · rename_i d' lastID _
      exact ih d'
    · exact ih d

/-- C3: after any run of saves, with any clock readings, the list handler
answers with a permutation of the stored rows in which `created_at` never
increases from a record to a later one. -/
theorem list_newest_first (d : Db) (saves : List (Bool × Nat × Payload)) :
    ∃ (stored : Db) (listed : List Row),
      runSaves (some d) saves = some stored ∧
      templates (some stored) true = ⟨200, [], .rows listed⟩ ∧
      listed.Perm stored.rows ∧
      listed.Pairwise (fun a b => b.created_at ≤ a.created_at) := by
  obtain ⟨stored, hs⟩ := runSaves_some d saves
  exact ⟨stored, _, hs, templates_ok stored, List.perm_insertionSort _ _,
    List.sorted_insertionSort _ _⟩


/-- C4: without a file the upload handler answers 400 with a body that is an
object with the one member `error` and no `imageUrl` (so not 500); with a file
it answers 200, so 400 is the answer only when the file is missing. -/
theorem uploadImage_400_iff_no_file :
    ((uploadImage none).status = 400 ∧ (uploadImage none).status ≠ 500 ∧
      (uploadImage none).body.isErrorObject = true ∧
      (uploadImage none).body.hasMember "error" = true ∧
      (uploadImage none).body.hasMember "imageUrl" = false) ∧
    (∀ f : MulterFile, (uploadImage (some f)).status = 200) ∧
    (∀ file : Option MulterFile, (uploadImage file).status = 400 ↔ file = none) := by
  refine ⟨⟨rfl, by decide, rfl, by decide, by decide⟩, fun _ => rfl, ?_⟩
  intro file
  cases file with
  | none => simp [uploadImage]
  | some f => simp [uploadImage]

/-- C8: for an upload with a file, at clock reading `t`, random integer `r`
and original name `n`, the stored filename is the decimal of `t`, `-`, the
decimal of `r`, `-`, `n`, and the handler answers 200 with `imageUrl` equal to
`http://localhost:3000/uploads/` followed by that filename. -/
theorem upload_filename_and_url (t r : Nat) (part : FilePart) :
    upload_single t r (some part) =
      some ⟨part.originalname, Nat.repr t ++ "-" ++ Nat.repr r ++ "-" ++ part.originalname⟩ ∧
    uploadImage (upload_single t r (some part)) =
      ⟨200, [], .json (.obj [("imageUrl", .str ("http://localhost:3000/uploads/" ++
        (Nat.repr t ++ "-" ++ Nat.repr r ++ "-" ++ part.originalname)))])⟩ := by
  refine ⟨rfl, ?_⟩
  simp only [upload_single, Option.map_some', uploadImage, filename]
  have hp : "http://localhost:" ++ toString port ++ "/uploads/" = "http://localhost:3000/uploads/" := by
    decide
  rw [hp]
  rfl

/-- C9: in the get-layout, save, list and render handlers a failed file read,
storage statement or render step gives status 500 and a body that is an object
with the single member `error`; a failed save leaves the store as it was and
sends no id. -/
theorem failures_answer_500 :
    (∀ msg : String, (serverError msg).status = 500 ∧ (serverError msg).body.isErrorObject = true ∧
        (serverError msg).body.hasMember "id" = false) ∧
    (∀ e : String, getEmailLayout (.error e) = serverError "Failed to read template file") ∧
    (∀ (up : Bool) (now : Nat) (p : Payload),
        uploadEmailConfig none up now p = (none, serverError "Failed to save template")) ∧
    (∀ (d : Db) (up : Bool) (now : Nat) (p : Payload) (e : SqlError),
        d.run_insert up now p.title p.content p.footer p.imageUrl (p.styles.map JSON.stringify)
          = .error e →
        uploadEmailConfig (some d) up now p = (some d, serverError "Failed to save template")) ∧
    (∀ up : Bool, templates none up = serverError "Failed to fetch templates") ∧
    (∀ (d : Db) (up : Bool) (e : SqlError), d.all_ordered up = .error e →
        templates (some d) up = serverError "Failed to fetch templates") ∧
    (∀ (e : String) (body : JSON),
        renderAndDownloadTemplate (.error e) body = some (serverError "Failed to render template")) ∧
    (∀ (layout : String) (body : JSON), Handlebars.render layout body = .throws →
        renderAndDownloadTemplate (.ok layout) body =
          some (serverError "Failed to render template")) := by
  refine ⟨fun msg => ⟨rfl, ?_, ?_⟩, fun _ => rfl, fun _ _ _ => rfl, ?_, fun _ => rfl, ?_,
    fun _ _ => rfl, ?_⟩
  · simp [serverError, Body.isErrorObject]
  · simp [serverError, Body.hasMember]
  · intro d up now p e h
    simp [uploadEmailConfig, h]
  · intro d up e h
    simp [templates, h]
  · intro layout body h
    simp [renderAndDownloadTemplate, h]

/-- C9 at concrete failures: the storage medium is down for a save and for a
list, and the layout `{{` does not parse. -/
theorem failures_answer_500_witness :
    uploadEmailConfig (some Db.empty) false 0 welcome =
        (some Db.empty, serverError "Failed to save template") ∧
    templates (some Db.empty) false = serverError "Failed to fetch templates" ∧
    renderAndDownloadTemplate (.ok "\x7b\x7b") (.obj []) =
        some (serverError "Failed to render template") :=
  ⟨failures_answer_500.2.2.2.1 Db.empty false 0 welcome .ioFailure rfl,
   failures_answer_500.2.2.2.2.2.1 Db.empty false .ioFailure rfl,
   failures_answer_500.2.2.2.2.2.2.2 "\x7b\x7b" (.obj []) (by decide)⟩

/-! ## Decimal numerals -/

theorem toDigitsCore_eq (n : Nat) : ∀ (fuel : Nat) (ds : List Char), n < fuel →
    Nat.toDigitsCore 10 fuel n ds = Nat.toDigits 10 n ++ ds := by
  induction n using Nat.strong_induction_on with
  | _ n ih =>
    intro fuel ds hlt
    cases fuel with
    | zero => omega
    | succ fuel =>
      unfold Nat.toDigits
      simp only [Nat.toDigitsCore]
      by_cases h0 : n / 10 = 0
      · simp [h0]
      · have hlt' : n / 10 < n := Nat.div_lt_self (by omega) (by decide)
        simp only [h0, if_false]
        rw [ih (n / 10) hlt' fuel _ (by omega), ih (n / 10) hlt' n _ hlt']
        simp

theorem toDigits_step (n : Nat) :
    Nat.toDigits 10 n =
      if n / 10 = 0 then [Nat.digitChar (n % 10)]
      else Nat.toDigits 10 (n / 10) ++ [Nat.digitChar (n % 10)] := by
  conv_lhs => unfold Nat.toDigits
  simp only [Nat.toDigitsCore]
  by_cases h0 : n / 10 = 0
  · simp [h0]
  · have hlt' : n / 10 < n := Nat.div_lt_self (by omega) (by decide)
    simp only [h0, if_false]
    rw [toDigitsCore_eq (n / 10) n _ hlt']

theorem digitChar_ne_dash (d : Nat) (h : d < 10) : Nat.digitChar d ≠ '-' := by
  interval_cases d <;> decide

theorem digitChar_inj (a b : Nat) (ha : a < 10) (hb : b < 10)
    (h : Nat.digitChar a = Nat.digitChar b) : a = b := by
  interval_cases a <;> interval_cases b <;> first | rfl | (exfalso; revert h; decide)

theorem toDigits_ne_nil (n : Nat) : Nat.toDigits 10 n ≠ [] := by
  rw [toDigits_step]
  split <;> simp

theorem dash_not_mem_toDigits (n : Nat) : '-' ∉ Nat.toDigits 10 n := by
  induction n using Nat.strong_induction_on with
  | _ n ih =>
    rw [toDigits_step]
    have hd := digitChar_ne_dash (n % 10) (Nat.mod_lt _ (by decide))
    by_cases h0 : n / 10 = 0
    · simp only [h0, if_true, List.mem_singleton]
      exact fun h => hd h.symm
    · have hlt' : n / 10 < n := Nat.div_lt_self (by omega) (by decide)
      simp only [h0, if_false, List.mem_append, List.mem_singleton]
      rintro (h | h)
      · exact ih _ hlt' h
      · exact hd h.symm

theorem toDigits_inj (n : Nat) : ∀ m : Nat, Nat.toDigits 10 n = Nat.toDigits 10 m → n = m := by
  induction n using Nat.strong_induction_on with
  | _ n ih =>
    intro m h
    rw [toDigits_step n, toDigits_step m] at h
    by_cases hn : n / 10 = 0 <;> by_cases hm : m / 10 = 0
    · simp only [hn, hm, if_true, List.cons.injEq, and_true] at h
      have := digitChar_inj _ _ (Nat.mod_lt n (by decide)) (Nat.mod_lt m (by decide)) h
      omega
    · simp only [hn, hm, if_true, if_false] at h
      have hl := congrArg List.length h
      have hne := toDigits_ne_nil (m / 10)
      have : (Nat.toDigits 10 (m / 10)).length ≠ 0 := fun h0 => hne (List.length_eq_zero.1 h0)
      simp only [List.length_singleton, List.length_append, List.length_cons, List.length_nil] at hl
      omega
    · simp only [hn, hm, if_true, if_false] at h
      have hl := congrArg List.length h
      have hne := toDigits_ne_nil (n / 10)
      have : (Nat.toDigits 10 (n / 10)).length ≠ 0 := fun h0 => hne (List.length_eq_zero.1 h0)
      simp only [List.length_singleton, List.length_append, List.length_cons, List.length_nil] at hl
      omega
    · simp only [hn, hm, if_false] at h
      have hlt' : n / 10 < n := Nat.div_lt_self (by omega) (by decide)
      obtain ⟨h1, h2⟩ := List.append_inj' h rfl
      have hq := ih _ hlt' _ h1
      have hr := digitChar_inj _ _ (Nat.mod_lt n (by decide)) (Nat.mod_lt m (by decide))
        (List.cons.inj h2).1
      omega

theorem split_at_dash : ∀ (a b x y : List Char), '-' ∉ a → '-' ∉ b →
    a ++ '-' :: x = b ++ '-' :: y → a = b ∧ x = y := by
  intro a
  induction a with
  | nil =>
    intro b x y _ hb h
    cases b with
    | nil => simpa using h
    | cons c b =>
      simp only [List.nil_append, List.cons_append, List.cons.injEq] at h
      exact absurd (h.1 ▸ List.mem_cons_self _ _) hb
  | cons c a ih =>
    intro b x y ha hb h
    cases b with
    | nil =>
      simp only [List.nil_append, List.cons_append, List.cons.injEq] at h
      exact absurd (h.1 ▸ List.mem_cons_self _ _) ha
    | cons e b =>
      simp only [List.cons_append, List.cons.injEq] at h
      obtain ⟨h1, h2⟩ := ih b x y (fun hm => ha (List.mem_cons_of_mem _ hm))
        (fun hm => hb (List.mem_cons_of_mem _ hm)) h.2
      exact ⟨by rw [h.1, h1], h2⟩

theorem filename_data (t r : Nat) (n : String) :
    (filename t r n).data =
      Nat.toDigits 10 t ++ '-' :: (Nat.toDigits 10 r ++ '-' :: n.data) := by
  simp [filename, toString, Nat.repr, List.asString, String.data_append]

theorem filename_inj (t1 t2 r1 r2 : Nat) (n1 n2 : String)
    (h : filename t1 r1 n1 = filename t2 r2 n2) : t1 = t2 ∧ r1 = r2 ∧ n1 = n2 := by
  have hd := congrArg String.data h
  rw [filename_data, filename_data] at hd
  obtain ⟨ht, hrest⟩ := split_at_dash _ _ _ _ (dash_not_mem_toDigits t1)
    (dash_not_mem_toDigits t2) hd
  obtain ⟨hr, hn⟩ := split_at_dash _ _ _ _ (dash_not_mem_toDigits r1)
    (dash_not_mem_toDigits r2) hrest
  exact ⟨toDigits_inj _ _ ht, toDigits_inj _ _ hr, String.ext hn⟩

/-- C10: the filename scheme is injective: two generated names are the same
string exactly when clock reading, random integer and original name all
coincide. -/
theorem filename_eq_iff (t1 t2 r1 r2 : Nat) (n1 n2 : String) :
    filename t1 r1 n1 = filename t2 r2 n2 ↔ t1 = t2 ∧ r1 = r2 ∧ n1 = n2 := by
  constructor
  · exact filename_inj t1 t2 r1 r2 n1 n2
  · rintro ⟨rfl, rfl, rfl⟩
    rfl

/-- C7 as stated fails: two uploads of different bytes in the same
millisecond with the same random integer and the same original name get the
same filename. -/
theorem generatedNames_collide :
    generatedNames [⟨1700000000000, 5, ⟨"a.png", [1]⟩⟩, ⟨1700000000000, 5, ⟨"a.png", [2]⟩⟩] =
      ["1700000000000-5-a.png", "1700000000000-5-a.png"] ∧
    ¬ (generatedNames [⟨1700000000000, 5, ⟨"a.png", [1]⟩⟩,
        ⟨1700000000000, 5, ⟨"a.png", [2]⟩⟩]).Pairwise (fun a b => a ≠ b) := by
  refine ⟨by rfl, ?_⟩
  have h : generatedNames [⟨1700000000000, 5, ⟨"a.png", [1]⟩⟩,
      ⟨1700000000000, 5, ⟨"a.png", [2]⟩⟩] =
      ["1700000000000-5-a.png", "1700000000000-5-a.png"] := by rfl
  rw [h]
  simp

/-- C7, as amended: in any sequence of uploads every upload gets a stored
filename, and the filename of an upload differs from that of every earlier
upload that differs from it in clock reading, random integer or original
name. -/
theorem generatedNames_distinct (us : List UploadEvent) :
    (generatedNames us).length = us.length ∧
    us.Pairwise (fun earlier later =>
      (earlier.now ≠ later.now ∨ earlier.rnd ≠ later.rnd ∨
        earlier.part.originalname ≠ later.part.originalname) →
      storedName earlier ≠ storedName later) := by
  constructor
  · unfold generatedNames
    induction us with
    | nil => rfl
    | cons u us ih => simp [List.filterMap_cons, storedName, upload_single, ih]
  · refine List.pairwise_of_forall ?_
    intro a b hdiff heq
    simp only [storedName, upload_single, Option.map_some', Option.some.injEq] at heq
    obtain ⟨h1, h2, h3⟩ := filename_inj _ _ _ _ _ _ heq
    rcases hdiff with h | h | h
    · exact h h1
    · exact h h2
    · exact h h3

/-- C7, amended, at two uploads of the same file one millisecond apart. -/
theorem generatedNames_distinct_witness :
    storedName ⟨1700000000000, 5, ⟨"a.png", [1]⟩⟩ ≠
      storedName ⟨1700000000001, 5, ⟨"a.png", [1]⟩⟩ :=
  (List.pairwise_cons.1 (generatedNames_distinct
    [⟨1700000000000, 5, ⟨"a.png", [1]⟩⟩, ⟨1700000000001, 5, ⟨"a.png", [1]⟩⟩]).2).1 _
    (List.mem_singleton_self _) (Or.inl (by decide))

/-! ## The Handlebars model on layouts of text and simple placeholders -/

namespace Handlebars

end Handlebars

end EmailBuilder
